import Mathlib

/-!
Verification model of the usb-moded USB mode control subsystem.

The definitions below are shallow embeddings of the C sources:
  - `usb_moded-control.c`  : mode controller state machine
  - `usb_moded-udev.c`     : cable-state observer (debounce logic)
  - `usb_moded-configfs.c` : ConfigFS gadget backend

Side effects (D-Bus signals, worker-channel posts, filesystem writes,
timers) are made explicit as event/action traces; external collaborators
(configuration lookups, session tracking, policy checks) become explicit
parameters.
-/

namespace UsbModed

/-- Modelled from the spec: the reserved mode name constants from
`usb_moded-modes.h`, which is not among the sources; §3 of the spec lists
the canonical strings. -/
def MODE_UNDEFINED : String := "undefined"

/-- Modelled from the spec: see `MODE_UNDEFINED`. -/
def MODE_ASK : String := "ask"

/-- Modelled from the spec: see `MODE_UNDEFINED`. -/
def MODE_BUSY : String := "busy"

/-- Modelled from the spec: see `MODE_UNDEFINED`. -/
def MODE_CHARGER : String := "charger"

/-- Modelled from the spec: see `MODE_UNDEFINED`. -/
def MODE_CHARGING_FALLBACK : String := "charging_fallback"

/-- Modelled from the spec: see `MODE_UNDEFINED`. -/
def MODE_DEVELOPER : String := "developer_mode"

/-- `cable_state_t` from `usb_moded-udev.c`. -/
inductive cable_state_t
  | unknown
  | disconnected
  | charger_connected
  | pc_connected
deriving DecidableEq, Repr

/-- The controller's global mutable state from `usb_moded-control.c`:
`control_internal_mode`, `control_target_mode`, `control_external_mode`
(all `char *`, NULL modelled as `none`), `control_cable_state` and
`control_user_for_mode` (`UID_UNKNOWN` modelled as `none`). -/
structure ControlState where
  internal : Option String
  target : Option String
  external : Option String
  cable : cable_state_t
  userForMode : Option Nat
deriving DecidableEq, Repr

/-- All-NULL / unknown initial state at daemon start. -/
def ControlState.init : ControlState :=
  ⟨none, none, none, cable_state_t.unknown, none⟩

/-- `control_get_external_mode()`: `control_external_mode ?: MODE_UNDEFINED`. -/
def ControlState.externalGet (s : ControlState) : String :=
  s.external.getD MODE_UNDEFINED

/-- `control_get_target_mode()`: `control_target_mode ?: MODE_UNDEFINED`. -/
def ControlState.targetGet (s : ControlState) : String :=
  s.target.getD MODE_UNDEFINED

/-- Observable side effects of the controller: D-Bus signals
(`umdbus_send_target_state_signal`, `umdbus_send_current_state_signal`,
`umdbus_send_event_signal(USB_CONNECTED_DIALOG_SHOW)`) and posts to the
worker channel (`worker_request_hardware_mode`). -/
inductive ControlEvent
  | targetState (m : String)
  | currentState (m : String)
  | dialogShow
  | workPost (m : String)
deriving DecidableEq, Repr

/-- Does an event post work to the worker channel? -/
def ControlEvent.isWorkPost : ControlEvent → Bool
  | ControlEvent.workPost _ => true
  | _ => false

/-- Modelled from the spec: the external collaborators consulted by
`usb_moded-control.c`, none of which are among the sources:
`common_map_mode_to_external` (§4.4 canonical external mapping),
`usbmoded_get_rescue_mode` / `usbmoded_get_diag_mode` /
`usbmoded_get_modelist` / `usbmoded_can_export` (policy flags, §4.3),
`config_get_mode_setting` (configured mode for the relevant slot),
`common_get_mode_list(AVAILABLE_MODES_LIST, user)` (comma-separated
string of available modes) and `user_get_current_user`. -/
structure ControlEnv where
  mapExt : String → String
  rescue : Bool
  diag : Bool
  modelist : List String
  currentUser : Option Nat
  cfgMode : String
  available : String
  canExport : Bool

/-- Modelled from the spec: `common_map_mode_to_external` (§4.4) for one
concrete configuration — `undefined` maps to itself, the
externally-hidden `charging_fallback` maps to its configured user-visible
synonym (here `charging_only`), every other mode maps to itself. -/
def common_map_mode_to_external (m : String) : String :=
  if m = MODE_CHARGING_FALLBACK then "charging_only" else m

/-- `control_set_target_mode`: no-op when the value is unchanged
(`g_strcmp0`), otherwise store and emit the target-state signal. -/
def control_set_target_mode (m : String) (s : ControlState) :
    ControlState × List ControlEvent :=
  if s.target = some m then (s, [])
  else ({ s with target := some m }, [ControlEvent.targetState m])

/-- `control_set_external_mode`: no-op when unchanged; otherwise store,
emit the dialog-show event when the new mode is `ask`, emit the
current-state signal, and — when the new mode is not `busy` — synchronize
the target mode to the (now stable) external mode. -/
def control_set_external_mode (m : String) (s : ControlState) :
    ControlState × List ControlEvent :=
  if s.external = some m then (s, [])
  else
    let s1 := { s with external := some m }
    let evs := (if m = MODE_ASK then [ControlEvent.dialogShow] else [])
                 ++ [ControlEvent.currentState m]
    if m = MODE_BUSY then (s1, evs)
    else
      let r := control_set_target_mode m s1
      (r.1, evs ++ r.2)

/-- `control_set_usb_mode`: no-op when the requested mode equals the
stored internal mode; otherwise set internal, publish target, publish
external `busy`, reset the mode owner, and post the work item. -/
def control_set_usb_mode (m : String) (s : ControlState) :
    ControlState × List ControlEvent :=
  if s.internal = some m then (s, [])
  else
    let r1 := control_set_target_mode m { s with internal := some m }
    let r2 := control_set_external_mode MODE_BUSY r1.1
    ({ r2.1 with userForMode := none },
      r1.2 ++ r2.2 ++ [ControlEvent.workPost m])

/-- `control_mode_switched`: adopt the mode reached by the worker without
retriggering the worker thread, then propagate the canonical external
mode up to D-Bus (`control_update_external_mode`) and record the current
user as mode owner. -/
def control_mode_switched (env : ControlEnv) (m : String) (s : ControlState) :
    ControlState × List ControlEvent :=
  let s1 := if s.internal = some m then s else { s with internal := some m }
  let r := control_set_external_mode (env.mapExt m) s1
  ({ r.1 with userForMode := env.currentUser }, r.2)

/-- The mode chosen by `control_select_usb_mode_ex` (the argument of its
single `control_set_usb_mode` call); `none` when no call is made
(diagnostic mode configured without modes). -/
def control_select_choice (env : ControlEnv) (user_changed : Bool) :
    Option String :=
  if env.rescue then some MODE_DEVELOPER
  else if env.diag then env.modelist.head?
  else
    let mode_to_set : Option String :=
      if env.cfgMode = MODE_ASK then
        if env.currentUser = none then none
        else if env.available ≠ "" ∧ ¬ env.available.toList.contains ',' then
          some env.available
        else some env.cfgMode
      else some env.cfgMode
    match mode_to_set with
    | some m =>
        if env.canExport ∧ ¬ user_changed then some m
        else some MODE_CHARGING_FALLBACK
    | none => some MODE_CHARGING_FALLBACK

/-- `control_select_usb_mode_ex`: gauge what mode to enter and call
`control_set_usb_mode` on it. -/
def control_select_usb_mode_ex (env : ControlEnv) (user_changed : Bool)
    (s : ControlState) : ControlState × List ControlEvent :=
  match control_select_choice env user_changed with
  | none => (s, [])
  | some m => control_set_usb_mode m s

/-- `control_set_cable_state`: no-op on unchanged state; otherwise store
and dispatch — disconnect (and the default case) requests `undefined`,
charger requests `charger`, pc runs the selector. -/
def control_set_cable_state (env : ControlEnv) (c : cable_state_t)
    (s : ControlState) : ControlState × List ControlEvent :=
  if s.cable = c then (s, [])
  else
    let s1 := { s with cable := c }
    match c with
    | cable_state_t.charger_connected => control_set_usb_mode MODE_CHARGER s1
    | cable_state_t.pc_connected => control_select_usb_mode_ex env false s1
    | _ => control_set_usb_mode MODE_UNDEFINED s1

/-- The externally invokable operations of the controller. -/
inductive ControlOp
  | setUsbMode (m : String)
  | modeSwitched (m : String)
  | setCableState (c : cable_state_t)
  | selectEx (user_changed : Bool)

/-- Dispatch one operation. -/
def control_step (env : ControlEnv) (op : ControlOp) (s : ControlState) :
    ControlState × List ControlEvent :=
  match op with
  | ControlOp.setUsbMode m => control_set_usb_mode m s
  | ControlOp.modeSwitched m => control_mode_switched env m s
  | ControlOp.setCableState c => control_set_cable_state env c s
  | ControlOp.selectEx b => control_select_usb_mode_ex env b s

/-- Run a sequence of operations (each with its own environment snapshot)
from the initial state. -/
def control_run (l : List (ControlEnv × ControlOp)) : ControlState :=
  l.foldl (fun s p => (control_step p.1 p.2 s).1) ControlState.init

/-- Stability invariant: outside of a `busy` transition the published
target agrees with the published external mode. -/
def control_inv (s : ControlState) : Prop :=
  s.externalGet ≠ MODE_BUSY → s.targetGet = s.externalGet

/-- An environment snapshot used to instantiate theorems on concrete runs. -/
def stdEnv : ControlEnv :=
  { mapExt := common_map_mode_to_external
    rescue := false
    diag := false
    modelist := []
    currentUser := some 0
    cfgMode := MODE_ASK
    available := ""
    canExport := true }

lemma control_set_external_mode_state (m : String) (s : ControlState) :
    (control_set_external_mode m s).1 =
      if s.external = some m then s
      else if m ≠ MODE_BUSY ∧ s.target ≠ some m then
        { s with external := some m, target := some m }
      else { s with external := some m } := by
  obtain ⟨i, t, e, cb, u⟩ := s
  by_cases h1 : e = some m <;> by_cases h2 : m = MODE_BUSY <;>
    by_cases h3 : t = some m <;>
      simp_all [control_set_external_mode, control_set_target_mode]

lemma control_set_external_mode_events (m : String) (s : ControlState) :
    (control_set_external_mode m s).2 =
      if s.external = some m then []
      else
        (if m = MODE_ASK then [ControlEvent.dialogShow] else [])
          ++ [ControlEvent.currentState m]
          ++ (if m ≠ MODE_BUSY ∧ s.target ≠ some m then
                [ControlEvent.targetState m] else []) := by
  obtain ⟨i, t, e, cb, u⟩ := s
  by_cases h1 : e = some m <;> by_cases h2 : m = MODE_BUSY <;>
    by_cases h3 : t = some m <;> by_cases h4 : m = MODE_ASK <;>
      simp_all [control_set_external_mode, control_set_target_mode]

lemma control_set_usb_mode_state (m : String) (s : ControlState) :
    (control_set_usb_mode m s).1 =
      if s.internal = some m then s
      else { s with internal := some m, target := some m,
                    external := some MODE_BUSY, userForMode := none } := by
  obtain ⟨i, t, e, cb, u⟩ := s
  by_cases h1 : i = some m <;> by_cases h2 : t = some m <;>
    by_cases h3 : e = some MODE_BUSY <;>
      simp_all [control_set_usb_mode, control_set_target_mode,
                control_set_external_mode]

lemma control_set_usb_mode_events (m : String) (s : ControlState) :
    (control_set_usb_mode m s).2 =
      if s.internal = some m then []
      else
        (if s.target = some m then [] else [ControlEvent.targetState m])
          ++ (if s.external = some MODE_BUSY then []
              else [ControlEvent.currentState MODE_BUSY])
          ++ [ControlEvent.workPost m] := by
  obtain ⟨i, t, e, cb, u⟩ := s
  by_cases h1 : i = some m <;> by_cases h2 : t = some m <;>
    by_cases h3 : e = some MODE_BUSY <;>
      simp_all [control_set_usb_mode, control_set_target_mode,
                control_set_external_mode, MODE_BUSY, MODE_ASK]

lemma control_inv_set_usb_mode (m : String) (s : ControlState)
    (h : control_inv s) : control_inv (control_set_usb_mode m s).1 := by
  rw [control_set_usb_mode_state]
  by_cases h1 : s.internal = some m
  · simpa [h1] using h
  · intro hb
    exfalso
    apply hb
    simp [h1, ControlState.externalGet]

lemma control_inv_mode_switched (env : ControlEnv) (m : String)
    (s : ControlState) (h : control_inv s) :
    control_inv (control_mode_switched env m s).1 := by
  unfold control_mode_switched
  dsimp only
  have h1 : control_inv (if s.internal = some m then s
      else { s with internal := some m }) := by
    split <;>
      simpa [control_inv, ControlState.externalGet, ControlState.targetGet]
        using h
  generalize hs1 : (if s.internal = some m then s
      else { s with internal := some m }) = s1 at h1
  intro hb
  rw [control_set_external_mode_state] at hb ⊢
  by_cases h2 : s1.external = some (env.mapExt m)
  · simp only [if_pos h2] at hb ⊢
    exact h1 hb
  · by_cases h3 : env.mapExt m ≠ MODE_BUSY ∧ s1.target ≠ some (env.mapExt m)
    · simp_all [ControlState.externalGet, ControlState.targetGet]
    · simp only [if_neg h2, if_neg h3] at hb ⊢
      simp only [not_and_or, not_not] at h3
      rcases h3 with h3 | h3
      · exfalso
        apply hb
        simp [ControlState.externalGet, h3]
      · simp [ControlState.externalGet, ControlState.targetGet, h3]

lemma control_inv_select (env : ControlEnv) (b : Bool) (s : ControlState)
    (h : control_inv s) : control_inv (control_select_usb_mode_ex env b s).1 := by
  unfold control_select_usb_mode_ex
  cases control_select_choice env b with
  | none => exact h
  | some m => exact control_inv_set_usb_mode m s h

lemma control_inv_cable (env : ControlEnv) (c : cable_state_t)
    (s : ControlState) (h : control_inv s) :
    control_inv (control_set_cable_state env c s).1 := by
  unfold control_set_cable_state
  by_cases h1 : s.cable = c
  · simpa [h1] using h
  · have h2 : control_inv ({ s with cable := c } : ControlState) := by
      simpa [control_inv, ControlState.externalGet, ControlState.targetGet]
        using h
    simp only [if_neg h1]
    cases c with
    | charger_connected => exact control_inv_set_usb_mode _ _ h2
    | pc_connected => exact control_inv_select _ _ _ h2
    | unknown => exact control_inv_set_usb_mode _ _ h2
    | disconnected => exact control_inv_set_usb_mode _ _ h2

lemma control_inv_step (env : ControlEnv) (op : ControlOp) (s : ControlState)
    (h : control_inv s) : control_inv (control_step env op s).1 := by
  cases op with
  | setUsbMode m => exact control_inv_set_usb_mode m s h
  | modeSwitched m => exact control_inv_mode_switched env m s h
  | setCableState c => exact control_inv_cable env c s h
  | selectEx b => exact control_inv_select env b s h

lemma control_inv_init : control_inv ControlState.init := by
  intro h
  rfl

lemma control_inv_run (l : List (ControlEnv × ControlOp)) :
    control_inv (control_run l) := by
  unfold control_run
  have main : ∀ (l : List (ControlEnv × ControlOp)) (s : ControlState),
      control_inv s →
      control_inv (l.foldl (fun s p => (control_step p.1 p.2 s).1) s) := by
    intro l
    induction l with
    | nil => intro s h; exact h
    | cons p rest ih =>
        intro s h
        exact ih _ (control_inv_step p.1 p.2 s h)
  exact main l ControlState.init control_inv_init

/-- What `control_mode_switched` guarantees from any state satisfying the
stability invariant: the worker-reported mode becomes the internal mode,
its canonical external mapping becomes external (and, when that is not
`busy`, also the target), and no work is re-posted. -/
lemma control_mode_switched_props (env : ControlEnv) (m : String)
    (s : ControlState) (hinv : control_inv s) :
    (control_mode_switched env m s).1.internal = some m ∧
    (control_mode_switched env m s).1.externalGet = env.mapExt m ∧
    (env.mapExt m ≠ MODE_BUSY →
      (control_mode_switched env m s).1.targetGet = env.mapExt m) ∧
    ∀ e ∈ (control_mode_switched env m s).2, e.isWorkPost = false := by
  unfold control_mode_switched
  dsimp only
  generalize hs1 : (if s.internal = some m then s
      else { s with internal := some m }) = s1
  have hint : s1.internal = some m := by
    rw [← hs1]; split <;> simp_all
  have hinv1 : control_inv s1 := by
    rw [← hs1]; split
    · exact hinv
    · simpa [control_inv, ControlState.externalGet, ControlState.targetGet]
        using hinv
  refine ⟨?_, ?_, ?_, ?_⟩
  · rw [control_set_external_mode_state]
    split
    · exact hint
    · split <;> simpa using hint
  · rw [control_set_external_mode_state]
    split
    · rename_i h
      simp [ControlState.externalGet, h]
    · split <;> simp [ControlState.externalGet]
  · intro hbusy
    rw [control_set_external_mode_state]
    by_cases h2 : s1.external = some (env.mapExt m)
    · simp only [if_pos h2]
      have hext : s1.externalGet = env.mapExt m := by
        simp [ControlState.externalGet, h2]
      have := hinv1 (by rw [hext]; exact hbusy)
      simp only [ControlState.targetGet] at this ⊢
      rw [this, hext]
    · by_cases h3 : s1.target = some (env.mapExt m)
      · simp [if_neg h2, hbusy, h3, ControlState.targetGet]
      · simp [if_neg h2, hbusy, h3, ControlState.targetGet]
  · intro e he
    rw [control_set_external_mode_events] at he
    split at he
    · simp at he
    · simp only [List.mem_append, List.mem_singleton] at he
      rcases he with (he | he) | he
      · split at he <;> simp_all [ControlEvent.isWorkPost]
      · subst he; rfl
      · split at he <;> simp_all [ControlEvent.isWorkPost]

/-- The selection rule of claim C4 exactly as the claim states it: with
`ask` configured for an unknown user use the charging fallback; with `ask`
and exactly one available mode use that mode (no further condition); with
a non-empty configured mode, export permitted, and no user change use it;
otherwise use the charging fallback. -/
def claimC4_selector (cfg : String) (userKnown : Bool) (avail : String)
    (canExport userChanged : Bool) : String :=
  if cfg = MODE_ASK ∧ ¬ userKnown then MODE_CHARGING_FALLBACK
  else if cfg = MODE_ASK ∧ userKnown ∧ (avail ≠ "" ∧ ¬ avail.toList.contains ',')
    then avail
  else if cfg ≠ "" ∧ canExport ∧ ¬ userChanged then cfg
  else MODE_CHARGING_FALLBACK

/-- The selection rule of claim C4 amended: the single-available-mode
shortcut for `ask` additionally requires that data export is permitted
and the user did not just change; and the configured mode is installed
whenever the config lookup returned anything at all — the code tests
only the pointer, not emptiness, so an empty `M` is chosen as-is rather
than falling back; otherwise the charging fallback wins. -/
def claimC4_selector_amended (cfg : String) (userKnown : Bool) (avail : String)
    (canExport userChanged : Bool) : String :=
  if cfg = MODE_ASK ∧ ¬ userKnown then MODE_CHARGING_FALLBACK
  else if cfg = MODE_ASK ∧ userKnown
      ∧ (avail ≠ "" ∧ ¬ avail.toList.contains ',')
      ∧ canExport ∧ ¬ userChanged
    then avail
  else if canExport ∧ ¬ userChanged then cfg
  else MODE_CHARGING_FALLBACK

/-- C1 (amended): whenever the external mode is not `busy` the target mode
agrees with the external mode — over every reachable state — and after any
`mode_switched(m)` from a reachable state the internal mode is `m` while
both external and target equal `canonical_external(m)` (which may differ
from `m`, so the internal mode need not agree). -/
theorem control_C1_stable_state_agreement :
    (∀ l : List (ControlEnv × ControlOp),
      (control_run l).externalGet ≠ MODE_BUSY →
      (control_run l).targetGet = (control_run l).externalGet) ∧
    (∀ (l : List (ControlEnv × ControlOp)) (env : ControlEnv) (m : String),
      env.mapExt m ≠ MODE_BUSY →
      (control_mode_switched env m (control_run l)).1.internal = some m ∧
      (control_mode_switched env m (control_run l)).1.externalGet
        = env.mapExt m ∧
      (control_mode_switched env m (control_run l)).1.targetGet
        = env.mapExt m) := by
  constructor
  · intro l
    exact control_inv_run l
  · intro l env m hbusy
    obtain ⟨h1, h2, h3, _⟩ :=
      control_mode_switched_props env m (control_run l) (control_inv_run l)
    exact ⟨h1, h2, h3 hbusy⟩

/-- Witness for C1's amended theorem at a concrete run. -/
theorem control_C1_stable_state_agreement_witness :
    stdEnv.mapExt "mtp_mode" ≠ MODE_BUSY ∧
    ((control_mode_switched stdEnv "mtp_mode" (control_run [])).1.internal
        = some "mtp_mode" ∧
     (control_mode_switched stdEnv "mtp_mode" (control_run [])).1.externalGet
        = stdEnv.mapExt "mtp_mode" ∧
     (control_mode_switched stdEnv "mtp_mode" (control_run [])).1.targetGet
        = stdEnv.mapExt "mtp_mode") :=
  ⟨by decide,
   control_C1_stable_state_agreement.2 [] stdEnv "mtp_mode" (by decide)⟩

/-- C1 counterexample: after `set_usb_mode("mtp_mode")` followed by
`mode_switched("charging_fallback")` the external mode is stable (not
`busy`) yet the internal mode `charging_fallback` differs from the
external mode `charging_only` = `canonical_external(charging_fallback)`,
so internal, target and external do not all agree. -/
theorem control_C1_counterexample :
    (control_run [(stdEnv, ControlOp.setUsbMode "mtp_mode"),
                  (stdEnv, ControlOp.modeSwitched "charging_fallback")]
      ).externalGet ≠ MODE_BUSY ∧
    (control_run [(stdEnv, ControlOp.setUsbMode "mtp_mode"),
                  (stdEnv, ControlOp.modeSwitched "charging_fallback")]
      ).internal = some "charging_fallback" ∧
    (control_run [(stdEnv, ControlOp.setUsbMode "mtp_mode"),
                  (stdEnv, ControlOp.modeSwitched "charging_fallback")]
      ).externalGet = "charging_only" ∧
    "charging_fallback" ≠ "charging_only" := by
  refine ⟨?_, ?_, ?_, ?_⟩ <;> decide

/-- C2: `set_usb_mode(m)` is a pure no-op when `m` is already the internal
mode; otherwise it sets the internal mode, publishes target `m` strictly
before setting external `busy`, resets `user_for_mode` to unknown, and
posts exactly one work item `(m)` — the trace equation shows the
target-state signal (when due) precedes the busy current-state signal,
with the single worker post last. -/
theorem control_C2_set_usb_mode_spec (s : ControlState) (m : String) :
    (s.internal = some m → control_set_usb_mode m s = (s, [])) ∧
    (s.internal ≠ some m →
      (control_set_usb_mode m s).1 =
        { s with internal := some m, target := some m,
                 external := some MODE_BUSY, userForMode := none } ∧
      (control_set_usb_mode m s).2 =
        (if s.target = some m then [] else [ControlEvent.targetState m])
          ++ (if s.external = some MODE_BUSY then []
              else [ControlEvent.currentState MODE_BUSY])
          ++ [ControlEvent.workPost m] ∧
      ((control_set_usb_mode m s).2.filter (fun e => e.isWorkPost))
        = [ControlEvent.workPost m]) := by
  constructor
  · intro h
    have h1 := control_set_usb_mode_state m s
    have h2 := control_set_usb_mode_events m s
    rw [if_pos h] at h1 h2
    exact Prod.ext h1 h2
  · intro h
    refine ⟨?_, ?_, ?_⟩
    · rw [control_set_usb_mode_state, if_neg h]
    · rw [control_set_usb_mode_events, if_neg h]
    · rw [control_set_usb_mode_events, if_neg h]
      split <;> split <;>
        simp [ControlEvent.isWorkPost]

/-- Witness for C2 at concrete inputs (both branches). -/
theorem control_C2_set_usb_mode_spec_witness :
    ControlState.init.internal ≠ some "mtp_mode" ∧
    ((control_set_usb_mode "mtp_mode" ControlState.init).2.filter
        (fun e => e.isWorkPost)) = [ControlEvent.workPost "mtp_mode"] :=
  ⟨by decide,
   ((control_C2_set_usb_mode_spec ControlState.init "mtp_mode").2
      (by decide)).2.2⟩

/-- C3 (amended): on `mode_switched(t')` with `t' ≠ t` the controller
adopts `t'` — internal becomes `t'`, external becomes
`canonical_external(t')` (leaving `busy`), target is synchronized to it —
and the worker is not re-dispatched: no work post is emitted. -/
theorem control_C3_mode_switched_adopts (env : ControlEnv) (m : String)
    (s : ControlState) (hinv : control_inv s) :
    (control_mode_switched env m s).1.internal = some m ∧
    (control_mode_switched env m s).1.externalGet = env.mapExt m ∧
    (env.mapExt m ≠ MODE_BUSY →
      (control_mode_switched env m s).1.targetGet = env.mapExt m) ∧
    ∀ e ∈ (control_mode_switched env m s).2, e.isWorkPost = false :=
  control_mode_switched_props env m s hinv

/-- Witness for C3's amended theorem. -/
theorem control_C3_mode_switched_adopts_witness :
    control_inv ControlState.init ∧
    (control_mode_switched stdEnv "charger" ControlState.init).1.internal
      = some "charger" :=
  ⟨fun _ => rfl,
   (control_C3_mode_switched_adopts stdEnv "charger" ControlState.init
      (fun _ => rfl)).1⟩

/-- C3 counterexample: from `Busy(mtp_mode)` (reached by
`set_usb_mode("mtp_mode")`), `mode_switched("charging_only")` does not
stay in `Busy(mtp_mode)` — the target becomes `charging_only`, the
external mode leaves `busy` — and no work item for `mtp_mode` (or any
mode) is posted, so the worker is not re-dispatched. -/
theorem control_C3_counterexample :
    (control_run [(stdEnv, ControlOp.setUsbMode "mtp_mode")]).externalGet
        = MODE_BUSY ∧
    (control_run [(stdEnv, ControlOp.setUsbMode "mtp_mode")]).targetGet
        = "mtp_mode" ∧
    (control_mode_switched stdEnv "charging_only"
        (control_run [(stdEnv, ControlOp.setUsbMode "mtp_mode")])).1.targetGet
        ≠ "mtp_mode" ∧
    (control_mode_switched stdEnv "charging_only"
        (control_run [(stdEnv, ControlOp.setUsbMode "mtp_mode")])).1.externalGet
        ≠ MODE_BUSY ∧
    ((control_mode_switched stdEnv "charging_only"
        (control_run [(stdEnv, ControlOp.setUsbMode "mtp_mode")])).2.filter
          (fun e => e.isWorkPost)) = [] := by
  refine ⟨?_, ?_, ?_, ?_, ?_⟩ <;> decide

/-- C4 (amended): with rescue and diagnostic modes off,
`control_select_usb_mode_ex` chooses exactly what the amended selection
rule says for every configured mode — the `ask` single-available-mode
shortcut also requires export permission and an unchanged user, and a
configured mode is installed whenever the lookup returned anything (even
the empty string: the code tests the pointer, not emptiness). -/
theorem control_C4_selector (env : ControlEnv) (user_changed : Bool)
    (hr : env.rescue = false) (hd : env.diag = false) :
    control_select_choice env user_changed =
      some (claimC4_selector_amended env.cfgMode env.currentUser.isSome
        env.available env.canExport user_changed) := by
  obtain ⟨mapExt, rescue, diag, modelist, currentUser, cfgMode,
    available, canExport⟩ := env
  simp only at hr hd ⊢
  subst hr
  subst hd
  by_cases h1 : cfgMode = MODE_ASK <;>
    cases currentUser <;>
      by_cases h3 : available = "" <;>
        by_cases h4 : available.toList.contains ',' = true <;>
          cases canExport <;>
            cases user_changed <;>
              simp_all [control_select_choice, claimC4_selector_amended]

/-- Witness for C4's amended theorem. -/
theorem control_C4_selector_witness :
    stdEnv.rescue = false ∧ stdEnv.diag = false ∧
    control_select_choice stdEnv false =
      some (claimC4_selector_amended stdEnv.cfgMode stdEnv.currentUser.isSome
        stdEnv.available stdEnv.canExport false) :=
  ⟨rfl, rfl, control_C4_selector stdEnv false rfl rfl⟩

/-- C4 counterexample: configured mode `ask`, known user, exactly one
available mode `mtp_mode`, but data export not permitted — the claim's
single-available-mode rule picks `mtp_mode`, while the code falls back to
`charging_fallback`. -/
theorem control_C4_counterexample :
    claimC4_selector "ask" true "mtp_mode" false false = "mtp_mode" ∧
    control_select_choice
        { stdEnv with available := "mtp_mode", canExport := false } false
      = some MODE_CHARGING_FALLBACK ∧
    MODE_CHARGING_FALLBACK ≠ "mtp_mode" := by
  refine ⟨?_, ?_, ?_⟩ <;> decide

/-! ### Cable-state observer (`usb_moded-udev.c`, cable section) -/

/-- The cable-state tracking globals of `usb_moded-udev.c`:
`cable_state_current` (as reported by udev), `cable_state_active`
(considered active by usb-moded), `cable_state_previous`, and the
debounce timer (`cable_state_timer_id`, modelled as the absolute
deadline of the pending `g_timeout_add(1500, ...)`), together with the
downstream observations emitted by `cable_state_changed` (the successive
active states). -/
structure CableObsState where
  current : cable_state_t
  active : cable_state_t
  previous : cable_state_t
  timer : Option Nat
  out : List cable_state_t
deriving DecidableEq, Repr

/-- Startup state: everything unknown, no timer, nothing emitted. -/
def CableObsState.start : CableObsState :=
  ⟨cable_state_t.unknown, cable_state_t.unknown, cable_state_t.unknown,
   none, []⟩

/-- `cable_state_set`: stop the timer; when the active state changes,
record previous/active and run `cable_state_changed` (modelled by
appending the newly active state to the downstream observations). -/
def cable_state_set (st : cable_state_t) (s : CableObsState) : CableObsState :=
  let s1 := { s with timer := none }
  if s1.active = st then s1
  else { s1 with previous := s1.active, active := st, out := s1.out ++ [st] }

/-- `cable_state_start_timer`: schedule the delayed transfer 1500 ms from
now unless a timer is already pending. -/
def cable_state_start_timer (now : Nat) (s : CableObsState) : CableObsState :=
  match s.timer with
  | some _ => s
  | none => { s with timer := some (now + 1500) }

/-- `cable_state_from_udev`: record the reported state; on a change,
defer a transition into `pc_connected` from a known prior state via the
timer, and apply every other transition immediately. -/
def cable_state_from_udev (now : Nat) (curr : cable_state_t)
    (s : CableObsState) : CableObsState :=
  let prev := s.current
  let s1 := { s with current := curr }
  if prev = curr then s1
  else if curr = cable_state_t.pc_connected ∧ prev ≠ cable_state_t.unknown
    then cable_state_start_timer now s1
  else cable_state_set curr s1

/-- Fire the pending `cable_state_timer_cb` when its deadline has been
reached: transfer the reported state to the active state. -/
def cable_fire_due (now : Nat) (s : CableObsState) : CableObsState :=
  match s.timer with
  | some d =>
      if d ≤ now then cable_state_set s.current { s with timer := none }
      else s
  | none => s

/-- Process one timed udev report: first let a due timer fire, then
handle the report. -/
def cable_obs_step (e : Nat × cable_state_t) (s : CableObsState) :
    CableObsState :=
  cable_state_from_udev e.1 e.2 (cable_fire_due e.1 s)

/-- Process a time-ordered list of udev reports from startup. -/
def cable_obs_run (l : List (Nat × cable_state_t)) : CableObsState :=
  l.foldl (fun s e => cable_obs_step e s) CableObsState.start

/-- C5: debounce of PC-connect.  (1) A report of `pc_connected` arriving
while the reported state is a different known state leaves the active
state and downstream observations untouched and arms the 1500 ms timer;
(2) a non-`pc_connected` report arriving while the promotion is pending
cancels the timer and is applied immediately; (3) a repeated
`pc_connected` report changes nothing (the timer keeps running); (4) the
timer transfers the pending `pc_connected` once its deadline is reached;
and (5) a `pc_connected` report between two non-`pc_connected` reports
less than 1500 ms apart never lets `pc_connected` reach the active state
or the downstream observations. -/
theorem cable_C5_debounce :
    (∀ (s : CableObsState) (t : Nat), s.timer = none →
      s.current ≠ cable_state_t.pc_connected →
      s.current ≠ cable_state_t.unknown →
      cable_state_from_udev t cable_state_t.pc_connected s =
        { s with current := cable_state_t.pc_connected,
                 timer := some (t + 1500) }) ∧
    (∀ (s : CableObsState) (t : Nat) (c : cable_state_t),
      s.current = cable_state_t.pc_connected →
      c ≠ cable_state_t.pc_connected →
      (cable_state_from_udev t c s).timer = none ∧
      (cable_state_from_udev t c s).active = c ∧
      (cable_state_from_udev t c s).out =
        (if s.active = c then s.out else s.out ++ [c])) ∧
    (∀ (s : CableObsState) (t : Nat),
      s.current = cable_state_t.pc_connected →
      cable_state_from_udev t cable_state_t.pc_connected s =
        { s with current := cable_state_t.pc_connected }) ∧
    (∀ (s : CableObsState) (d t : Nat), s.timer = some d → d ≤ t →
      s.current = cable_state_t.pc_connected →
      (cable_fire_due t s).active = cable_state_t.pc_connected) ∧
    (∀ (s : CableObsState) (t1 t2 : Nat) (c : cable_state_t),
      s.timer = none →
      s.current ≠ cable_state_t.pc_connected →
      s.current ≠ cable_state_t.unknown →
      c ≠ cable_state_t.pc_connected →
      t2 < t1 + 1500 →
      (cable_obs_step (t2, c)
          (cable_obs_step (t1, cable_state_t.pc_connected) s)).timer = none ∧
      (cable_obs_step (t2, c)
          (cable_obs_step (t1, cable_state_t.pc_connected) s)).active = c ∧
      (cable_state_t.pc_connected ∉ s.out →
        cable_state_t.pc_connected ∉
          (cable_obs_step (t2, c)
            (cable_obs_step (t1, cable_state_t.pc_connected) s)).out)) := by
  refine ⟨?_, ?_, ?_, ?_, ?_⟩
  · intro s t h0 h1 h2
    obtain ⟨cur, act, prv, tm, o⟩ := s
    simp only at h0 h1 h2
    subst h0
    simp [cable_state_from_udev, cable_state_start_timer, h1, h2,
      Ne.symm h1]
  · intro s t c h1 h2
    obtain ⟨cur, act, prv, tm, o⟩ := s
    simp only at h1
    subst h1
    by_cases h3 : act = c <;>
      simp [cable_state_from_udev, cable_state_set, Ne.symm h2, h2, h3]
  · intro s t h1
    obtain ⟨cur, act, prv, tm, o⟩ := s
    simp only at h1
    subst h1
    simp [cable_state_from_udev]
  · intro s d t h1 h2 h3
    obtain ⟨cur, act, prv, tm, o⟩ := s
    simp only at h1 h3
    subst h1
    subst h3
    by_cases h4 : act = cable_state_t.pc_connected <;>
      simp [cable_fire_due, cable_state_set, h2, h4]
  · intro s t1 t2 c h0 h1 h2 h3 h4
    obtain ⟨cur, act, prv, tm, o⟩ := s
    simp only at h0 h1 h2
    subst h0
    have step1 : cable_obs_step (t1, cable_state_t.pc_connected)
        (⟨cur, act, prv, none, o⟩ : CableObsState) =
        ⟨cable_state_t.pc_connected, act, prv, some (t1 + 1500), o⟩ := by
      simp [cable_obs_step, cable_fire_due, cable_state_from_udev,
        cable_state_start_timer, h1, h2, Ne.symm h1]
    rw [step1]
    have hnotdue : ¬ (t1 + 1500 ≤ t2) := by omega
    have hfire : cable_fire_due t2
        (⟨cable_state_t.pc_connected, act, prv, some (t1 + 1500), o⟩ :
          CableObsState) =
        ⟨cable_state_t.pc_connected, act, prv, some (t1 + 1500), o⟩ := by
      simp [cable_fire_due, hnotdue]
    show ((cable_obs_step (t2, c) _).timer = none ∧ _ ∧ _)
    unfold cable_obs_step
    rw [hfire]
    by_cases h5 : act = c
    · have step2 : cable_state_from_udev t2 c
          (⟨cable_state_t.pc_connected, act, prv, some (t1 + 1500), o⟩ :
            CableObsState) =
          ⟨c, act, prv, none, o⟩ := by
        simp [cable_state_from_udev, cable_state_set, Ne.symm h3, h3, h5]
      rw [step2]
      exact ⟨rfl, h5, fun h => h⟩
    · have step2 : cable_state_from_udev t2 c
          (⟨cable_state_t.pc_connected, act, prv, some (t1 + 1500), o⟩ :
            CableObsState) =
          ⟨c, c, act, none, o ++ [c]⟩ := by
        simp [cable_state_from_udev, cable_state_set, Ne.symm h3, h3, h5]
      rw [step2]
      refine ⟨rfl, rfl, fun h => ?_⟩
      simp only [List.mem_append, List.mem_singleton]
      rintro (hin | hin)
      · exact h hin
      · exact h3 hin.symm

/-- Witness for C5 at concrete values: a disconnected→pc report at t=0
followed by a disconnected report at t=1000 is never promoted. -/
theorem cable_C5_debounce_witness :
    let s0 : CableObsState :=
      ⟨cable_state_t.disconnected, cable_state_t.disconnected,
       cable_state_t.unknown, none, [cable_state_t.disconnected]⟩
    s0.timer = none ∧
    s0.current ≠ cable_state_t.pc_connected ∧
    s0.current ≠ cable_state_t.unknown ∧
    cable_state_t.disconnected ≠ cable_state_t.pc_connected ∧
    (1000 : Nat) < 0 + 1500 ∧
    ((cable_obs_step (1000, cable_state_t.disconnected)
        (cable_obs_step (0, cable_state_t.pc_connected) s0)).timer = none ∧
     (cable_obs_step (1000, cable_state_t.disconnected)
        (cable_obs_step (0, cable_state_t.pc_connected) s0)).active
        = cable_state_t.disconnected ∧
     (cable_state_t.pc_connected ∉ s0.out →
       cable_state_t.pc_connected ∉
         (cable_obs_step (1000, cable_state_t.disconnected)
           (cable_obs_step (0, cable_state_t.pc_connected) s0)).out)) :=
  ⟨rfl, by decide, by decide, by decide, by decide,
   cable_C5_debounce.2.2.2.2 _ 0 1000 cable_state_t.disconnected
     rfl (by decide) (by decide) (by decide) (by decide)⟩

/-! ### ConfigFS id normalization (`usb_moded-configfs.c`) -/

/-- C locale `isspace`, as skipped by `strtol`. -/
def isCSpace (c : Char) : Bool :=
  c == ' ' || c == '\t' || c == '\n' || c == '\r' ||
    c == Char.ofNat 11 || c == Char.ofNat 12

/-- Base-16 digit, as accepted by `strtol(_, _, 16)`. -/
def isHexDigitC (c : Char) : Bool :=
  c.isDigit || (decide ('a' ≤ c) && decide (c ≤ 'f'))
    || (decide ('A' ≤ c) && decide (c ≤ 'F'))

/-- Value of a base-16 digit. -/
def hexVal (c : Char) : Nat :=
  if c.isDigit then c.toNat - '0'.toNat
  else if 'a' ≤ c ∧ c ≤ 'f' then c.toNat - 'a'.toNat + 10
  else c.toNat - 'A'.toNat + 10

/-- Greedily consume base-16 digits: accumulated value, number of digits
consumed so far, and the unconsumed remainder. -/
def hexDigitsAcc : List Char → Nat → Nat → Nat × Nat × List Char
  | [], acc, n => (acc, n, [])
  | c :: cs, acc, n =>
      if isHexDigitC c then hexDigitsAcc cs (acc * 16 + hexVal c) (n + 1)
      else (acc, n, c :: cs)

/-- `LONG_MAX` on an LP64 system. -/
def LONG_MAX : Int := 2 ^ 63 - 1

/-- `LONG_MIN` on an LP64 system. -/
def LONG_MIN : Int := -(2 ^ 63)

/-- `strtol` saturates to `LONG_MIN` / `LONG_MAX` on overflow. -/
def clampLong (v : Int) : Int := max LONG_MIN (min LONG_MAX v)

/-- The sign handling of `strtol`: an optional single `-` or `+`. -/
def strtol16_sign (l1 : List Char) : Bool × List Char :=
  match l1 with
  | c :: r =>
      if c = '-' then (true, r)
      else if c = '+' then (false, r)
      else (false, l1)
  | [] => (false, l1)

/-- Does the list start with a hex digit? -/
def headHex (r : List Char) : Bool :=
  match r with
  | c :: _ => isHexDigitC c
  | [] => false

/-- The base-16 prefix handling of `strtol`: a `0x`/`0X` prefix is part
of the subject sequence only when a hex digit follows it. -/
def strtol16_body (l2 : List Char) : List Char :=
  match l2 with
  | c0 :: x :: r =>
      if c0 = '0' ∧ (x = 'x' ∨ x = 'X') ∧ headHex r = true
        then r else l2
  | _ => l2

/-- `strtol(nptr, &end, 16)` on a character list: skip leading C
whitespace, take an optional sign, take a `0x`/`0X` prefix when it is
followed by a hex digit, then consume hex digits greedily.  Returns
`none` when no digit was converted (`end == nptr`), otherwise the
(saturated) value and the remainder `*end` points to. -/
def strtol16 (l : List Char) : Option (Int × List Char) :=
  let sn := strtol16_sign (l.dropWhile isCSpace)
  let p := hexDigitsAcc (strtol16_body sn.2) 0 0
  if p.2.1 = 0 then none
  else some (clampLong (if sn.1 then -(p.1 : Int) else (p.1 : Int)), p.2.2)

/-- `%04x`: lowercase hex, zero-padded to at least four digits. -/
def format04x (num : Nat) : String :=
  let ds := Nat.toDigits 16 num
  String.mk (List.replicate (4 - ds.length) '0' ++ ds)

/-- The text that `configfs_set_productid` / `configfs_set_vendorid`
passes to `configfs_write_file`: when `strtol(id, &end, 16)` converted
something (`end > id`) and consumed the whole string (`*end == 0`),
the value is rendered as `0x%04x` (truncated to `unsigned`), otherwise
the original string is passed through unchanged. -/
def configfs_id_write_text (id : String) : String :=
  match strtol16 id.toList with
  | some (v, rest) =>
      if rest = [] then "0x" ++ format04x ((v % (2 ^ 32 : Int)).toNat)
      else id
  | none => id

/-- A whole-string base-16 parse: an optional `0x`/`0X` prefix followed
by one or more hex digits and nothing else. -/
def claimC6_digits (l2 : List Char) : Option (List Char) :=
  match l2 with
  | c0 :: x :: r =>
      if c0 = '0' ∧ (x = 'x' ∨ x = 'X') ∧ r ≠ [] ∧ r.all isHexDigitC
        then some r
      else if (c0 :: x :: r).all isHexDigitC then some (c0 :: x :: r)
      else none
  | _ => if l2 ≠ [] ∧ l2.all isHexDigitC then some l2 else none

/-- The id normalization exactly as claim C6 states it: strip whitespace
from both ends, parse the remainder as base-16 (optional `0x`/`0X`
prefix); on success render `0x%04x`, on failure pass the original string
through unchanged. -/
def claimC6_id_text (id : String) : String :=
  let core := ((id.toList.dropWhile isCSpace).reverse.dropWhile
    isCSpace).reverse
  match claimC6_digits core with
  | some ds =>
      "0x" ++ format04x (ds.foldl (fun a c => a * 16 + hexVal c) 0)
  | none => id

/-- The id normalization as claim C6 must be amended to match the code:
only leading whitespace is skipped (by `strtol`); an optional sign and an
optional `0x`/`0X` prefix are accepted; the parse succeeds only when the
whole remainder consists of hex digits (at least one), in which case the
saturated value truncated to 32 bits is rendered as `0x%04x`; any
trailing character — including whitespace — makes the original string
pass through unchanged. -/
def claimC6_amended_text (id : String) : String :=
  let sn := strtol16_sign (id.toList.dropWhile isCSpace)
  match claimC6_digits sn.2 with
  | some ds =>
      let v : Int := clampLong (if sn.1
        then -((ds.foldl (fun a c => a * 16 + hexVal c) 0 : Nat) : Int)
        else ((ds.foldl (fun a c => a * 16 + hexVal c) 0 : Nat) : Int))
      "0x" ++ format04x ((v % (2 ^ 32 : Int)).toNat)
  | none => id

lemma hexDigitsAcc_count_le (l : List Char) (acc n : Nat) :
    n ≤ (hexDigitsAcc l acc n).2.1 := by
  induction l generalizing acc n with
  | nil => simp [hexDigitsAcc]
  | cons c cs ih =>
      by_cases h : isHexDigitC c = true
      · simp only [hexDigitsAcc, if_pos h]
        exact Nat.le_trans (Nat.le_succ n) (ih _ _)
      · simp [hexDigitsAcc, h]

lemma hexDigitsAcc_rest_nil (l : List Char) (acc n : Nat) :
    ((hexDigitsAcc l acc n).2.2 = []) ↔ (l.all isHexDigitC = true) := by
  induction l generalizing acc n with
  | nil => simp [hexDigitsAcc]
  | cons c cs ih =>
      by_cases h : isHexDigitC c = true
      · simp only [hexDigitsAcc, if_pos h, List.all_cons, h,
          Bool.true_and]
        exact ih _ _
      · simp [hexDigitsAcc, h]

lemma hexDigitsAcc_val (l : List Char) (acc n : Nat)
    (h : l.all isHexDigitC = true) :
    (hexDigitsAcc l acc n).1 =
      l.foldl (fun a c => a * 16 + hexVal c) acc := by
  induction l generalizing acc n with
  | nil => simp [hexDigitsAcc]
  | cons c cs ih =>
      simp only [List.all_cons, Bool.and_eq_true] at h
      simp only [hexDigitsAcc, if_pos h.1, List.foldl_cons]
      exact ih _ _ h.2

lemma hexDigitsAcc_fail_head (c : Char) (cs : List Char)
    (h : isHexDigitC c = false) :
    hexDigitsAcc (c :: cs) 0 0 = (0, 0, c :: cs) := by
  simp [hexDigitsAcc, h]

lemma hexDigitsAcc_count_pos (c : Char) (cs : List Char) (acc n : Nat)
    (h : isHexDigitC c = true) :
    n < (hexDigitsAcc (c :: cs) acc n).2.1 := by
  simp only [hexDigitsAcc, if_pos h]
  exact Nat.lt_of_lt_of_le (Nat.lt_succ_self n) (hexDigitsAcc_count_le _ _ _)

/-- The full-consumption success condition of `strtol` agrees with the
whole-string parse of `claimC6_digits`, and the values agree. -/
lemma strtol16_core (l2 : List Char) :
    (if (hexDigitsAcc (strtol16_body l2) 0 0).2.1 = 0 then (none : Option Nat)
     else if (hexDigitsAcc (strtol16_body l2) 0 0).2.2 = [] then
       some (hexDigitsAcc (strtol16_body l2) 0 0).1
     else none)
    = (claimC6_digits l2).map
        (fun ds => ds.foldl (fun a c => a * 16 + hexVal c) 0) := by
  rcases l2 with _ | ⟨c0, l2t⟩
  · simp [strtol16_body, claimC6_digits, hexDigitsAcc]
  · rcases l2t with _ | ⟨x, r⟩
    · by_cases h : isHexDigitC c0 = true
      · simp [strtol16_body, claimC6_digits, hexDigitsAcc, h]
      · simp [strtol16_body, claimC6_digits, hexDigitsAcc, h]
    · by_cases hg : c0 = '0' ∧ (x = 'x' ∨ x = 'X') ∧ headHex r = true
      · obtain ⟨hc0, hx, hr⟩ := hg
        rcases r with _ | ⟨c1, rs⟩
        · simp [headHex] at hr
        · simp only [headHex] at hr
          have hxhex : isHexDigitC x = false := by
            rcases hx with h | h <;> subst h <;> decide
          by_cases hall : (c1 :: rs).all isHexDigitC = true
          · have hcount := hexDigitsAcc_count_pos c1 rs 0 0 hr
            have hrest := (hexDigitsAcc_rest_nil (c1 :: rs) 0 0).mpr hall
            have hval := hexDigitsAcc_val (c1 :: rs) 0 0 hall
            simp [strtol16_body, claimC6_digits, headHex, hc0, hx, hr, hall,
              Nat.pos_iff_ne_zero.mp hcount, hrest, hval]
          · have hrest : (hexDigitsAcc (c1 :: rs) 0 0).2.2 ≠ [] := by
              intro hh
              exact hall ((hexDigitsAcc_rest_nil _ _ _).mp hh)
            by_cases hcnt : (hexDigitsAcc (c1 :: rs) 0 0).2.1 = 0
            · simp [strtol16_body, claimC6_digits, headHex, hc0, hx, hr,
                hall, hxhex, hcnt]
            · simp [strtol16_body, claimC6_digits, headHex, hc0, hx, hr,
                hall, hxhex, hcnt, hrest]
      · have hbody : strtol16_body (c0 :: x :: r) = c0 :: x :: r := by
          simp only [strtol16_body, if_neg hg]
        have hguard : ¬ (c0 = '0' ∧ (x = 'x' ∨ x = 'X') ∧ r ≠ [] ∧
            ∀ c ∈ r, isHexDigitC c = true) := by
          rintro ⟨a, b, hne, hall⟩
          apply hg
          refine ⟨a, b, ?_⟩
          rcases r with _ | ⟨c1, rs⟩
          · exact absurd rfl hne
          · simpa [headHex] using hall c1 (List.mem_cons_self c1 rs)
        by_cases hall : (c0 :: x :: r).all isHexDigitC = true
        · have hhead : isHexDigitC c0 = true := by
            simp only [List.all_cons, Bool.and_eq_true] at hall
            exact hall.1
          have hcount := hexDigitsAcc_count_pos c0 (x :: r) 0 0 hhead
          have hrest := (hexDigitsAcc_rest_nil (c0 :: x :: r) 0 0).mpr hall
          have hval := hexDigitsAcc_val (c0 :: x :: r) 0 0 hall
          rw [hbody]
          simp [claimC6_digits, hguard, hall,
            Nat.pos_iff_ne_zero.mp hcount, hrest, hval]
        · have hrest : (hexDigitsAcc (c0 :: x :: r) 0 0).2.2 ≠ [] := by
            intro hh
            exact hall ((hexDigitsAcc_rest_nil _ _ _).mp hh)
          have hcond : ¬ (isHexDigitC c0 = true ∧ isHexDigitC x = true ∧
              ∀ c ∈ r, isHexDigitC c = true) := by
            simpa [List.all_cons, Bool.and_eq_true, List.all_eq_true,
              and_assoc] using hall
          rw [hbody]
          by_cases hcnt : (hexDigitsAcc (c0 :: x :: r) 0 0).2.1 = 0
          · simp [claimC6_digits, hguard, hcond, hcnt]
          · simp [claimC6_digits, hguard, hcond, hcnt, hrest]

lemma configfs_id_write_core (neg : Bool) (l2 : List Char) (id : String) :
    (match (if (hexDigitsAcc (strtol16_body l2) 0 0).2.1 = 0 then
              (none : Option (Int × List Char))
            else some (clampLong (if neg then
                  -((hexDigitsAcc (strtol16_body l2) 0 0).1 : Int)
                else ((hexDigitsAcc (strtol16_body l2) 0 0).1 : Int)),
              (hexDigitsAcc (strtol16_body l2) 0 0).2.2)) with
     | some (v, rest) =>
        if rest = [] then "0x" ++ format04x ((v % (2 ^ 32 : Int)).toNat)
        else id
     | none => id)
    = (match claimC6_digits l2 with
       | some ds =>
          "0x" ++ format04x (((clampLong (if neg then
              -((ds.foldl (fun a c => a * 16 + hexVal c) 0 : Nat) : Int)
            else ((ds.foldl (fun a c => a * 16 + hexVal c) 0 : Nat) : Int)))
              % (2 ^ 32 : Int)).toNat)
       | none => id) := by
  have hcore := strtol16_core l2
  by_cases hcnt : (hexDigitsAcc (strtol16_body l2) 0 0).2.1 = 0
  · rw [if_pos hcnt] at hcore
    rw [if_pos hcnt]
    cases hdig : claimC6_digits l2 with
    | none => simp
    | some ds =>
        rw [hdig] at hcore
        simp at hcore
  · rw [if_neg hcnt] at hcore
    rw [if_neg hcnt]
    by_cases hrest : (hexDigitsAcc (strtol16_body l2) 0 0).2.2 = []
    · rw [if_pos hrest] at hcore
      cases hdig : claimC6_digits l2 with
      | none =>
          rw [hdig] at hcore
          simp at hcore
      | some ds =>
          rw [hdig] at hcore
          simp only [Option.map_some'] at hcore
          rw [Option.some_inj] at hcore
          simp [hrest, hcore]
    · rw [if_neg hrest] at hcore
      cases hdig : claimC6_digits l2 with
      | none => simp [hrest]
      | some ds =>
          rw [hdig] at hcore
          simp at hcore

/-- C6 (amended): for every id string the text written by
`configfs_set_productid` / `configfs_set_vendorid` equals the amended
normalization — leading (not surrounding) whitespace skipped, optional
sign and `0x` prefix, full consumption required, `0x%04x` rendering of
the 32-bit truncated value, original string on failure; the claim's own
examples hold. -/
theorem configfs_C6_id_normalization :
    (∀ id : String, configfs_id_write_text id = claimC6_amended_text id) ∧
    configfs_id_write_text "0AFE" = "0x0afe" ∧
    configfs_id_write_text "0x0AFE" = "0x0afe" ∧
    configfs_id_write_text "zzz" = "zzz" := by
  refine ⟨?_, by decide, by decide, by decide⟩
  intro id
  exact configfs_id_write_core
    (strtol16_sign (id.toList.dropWhile isCSpace)).1
    (strtol16_sign (id.toList.dropWhile isCSpace)).2 id

/-- Witness for C6's amended theorem. -/
theorem configfs_C6_id_normalization_witness :
    configfs_id_write_text "0AFE " = claimC6_amended_text "0AFE " :=
  configfs_C6_id_normalization.1 "0AFE "

/-- C6 counterexample: with a trailing space the claim's
surrounding-whitespace normalization yields `0x0afe`, but the code passes
the string through unchanged, because `strtol` only skips leading
whitespace and the `*end == 0` check then fails. -/
theorem configfs_C6_counterexample :
    claimC6_id_text "0AFE " = "0x0afe" ∧
    configfs_id_write_text "0AFE " = "0AFE " ∧
    ("0AFE " : String) ≠ "0x0afe" := by
  refine ⟨?_, ?_, ?_⟩ <;> decide

/-! ### udev power-supply classification (`usb_moded-udev.c`) -/

/-- The udev properties `umudev_parse_properties` reads from a
power-supply change event; `none` models an absent property. -/
structure UdevProps where
  present : Option String
  online : Option String
  realType : Option String
  psType : Option String
deriving DecidableEq, Repr

/-- `umudev_parse_properties`, reduced to its observable effect: which
cable state is reported via `cable_state_from_udev` and whether the
`USB_FLOAT` detection-failure warning fires (it does only when the
active cable state says not connected).  `POWER_SUPPLY_PRESENT` is
preferred over `POWER_SUPPLY_ONLINE`, `POWER_SUPPLY_REAL_TYPE` over
`POWER_SUPPLY_TYPE`. -/
def umudev_parse_properties (p : UdevProps) (alreadyConnected : Bool) :
    cable_state_t × Bool :=
  let presentEff := p.present <|> p.online
  let connected := presentEff = some "1"
  if ¬ connected then (cable_state_t.disconnected, false)
  else
    match p.realType <|> p.psType with
    | none => (cable_state_t.pc_connected, false)
    | some t =>
        if t = "USB" ∨ t = "USB_CDP" then (cable_state_t.pc_connected, false)
        else if t = "USB_DCP" ∨ t = "USB_HVDCP" ∨ t = "USB_HVDCP_3" then
          (cable_state_t.charger_connected, false)
        else if t = "USB_FLOAT" then
          (cable_state_t.charger_connected, ¬ alreadyConnected)
        else if t = "Unknown" then (cable_state_t.disconnected, false)
        else (cable_state_t.disconnected, false)

/-- The type-to-state table exactly as claim C7 states it (the input is
the effective type property, `none` when both are absent). -/
def claimC7_map (t : Option String) : cable_state_t :=
  match t with
  | none => cable_state_t.pc_connected
  | some v =>
      if v = "USB" ∨ v = "USB_CDP" then cable_state_t.pc_connected
      else if v = "USB_DCP" ∨ v = "USB_HVDCP" ∨ v = "USB_HVDCP_3" ∨
          v = "USB_FLOAT" then cable_state_t.charger_connected
      else cable_state_t.disconnected

/-- C7: for every presence-indicating event the reported state follows
the claim's table on the effective type (`POWER_SUPPLY_REAL_TYPE`
preferred, `POWER_SUPPLY_TYPE` fallback, `PcConnected` when both are
absent; `Unknown` and unrecognised types map to `Disconnected`), and the
`USB_FLOAT` warning fires exactly when the observer was not already
connected. -/
theorem umudev_C7_classification (p : UdevProps) (already : Bool)
    (hpresent : (p.present <|> p.online) = some "1") :
    (umudev_parse_properties p already).1 =
      claimC7_map (p.realType <|> p.psType) ∧
    ((umudev_parse_properties p already).2 = true ↔
      ((p.realType <|> p.psType) = some "USB_FLOAT" ∧ already = false)) := by
  unfold umudev_parse_properties claimC7_map
  rw [if_neg (by simp [hpresent])]
  cases htype : (p.realType <|> p.psType) with
  | none => simp
  | some t =>
      by_cases h1 : t = "USB" ∨ t = "USB_CDP"
      · have hne : t ≠ "USB_FLOAT" := by
          rcases h1 with h | h <;> subst h <;> decide
        simp [h1, hne]
      · by_cases h2 : t = "USB_DCP" ∨ t = "USB_HVDCP" ∨ t = "USB_HVDCP_3"
        · have h2a : t = "USB_DCP" ∨ t = "USB_HVDCP" ∨ t = "USB_HVDCP_3" ∨
              t = "USB_FLOAT" := by tauto
          have hne : t ≠ "USB_FLOAT" := by
            rcases h2 with h | h | h <;> subst h <;> decide
          simp [h1, h2, h2a, hne]
        · by_cases h3 : t = "USB_FLOAT"
          · subst h3
            cases already <;> simp [h1, h2]
          · have h2a : ¬ (t = "USB_DCP" ∨ t = "USB_HVDCP" ∨
                t = "USB_HVDCP_3" ∨ t = "USB_FLOAT") := by tauto
            by_cases h4 : t = "Unknown"
            · simp [h1, h2, h2a, h3, h4]
            · simp [h1, h2, h2a, h3, h4]

/-- Witness for C7 at a concrete event: `POWER_SUPPLY_PRESENT=1` with
`POWER_SUPPLY_TYPE=USB` is reported as a PC connection. -/
theorem umudev_C7_classification_witness :
    ((⟨some "1", none, none, some "USB"⟩ : UdevProps).present <|>
      (⟨some "1", none, none, some "USB"⟩ : UdevProps).online) = some "1" ∧
    (umudev_parse_properties ⟨some "1", none, none, some "USB"⟩ false).1 =
      claimC7_map ((⟨some "1", none, none, some "USB"⟩ : UdevProps).realType
        <|> (⟨some "1", none, none, some "USB"⟩ : UdevProps).psType) :=
  ⟨rfl, (umudev_C7_classification ⟨some "1", none, none, some "USB"⟩ false
    rfl).1⟩

/-! ### ConfigFS backend operations (`usb_moded-configfs.c`) -/

/-- `FUNCTION_MTP` constant. -/
def FUNCTION_MTP : String := "ffs.mtp"

/-- `configfs_map_function`: normalize the short names used by usb-moded
and existing configuration files to backend function paths. -/
def configfs_map_function (func : String) : String :=
  if func = "mass_storage" then "mass_storage.usb0"
  else if func = "rndis" then "rndis_bam.rndis"
  else if func = "mtp" then FUNCTION_MTP
  else if func = "ffs" then FUNCTION_MTP
  else func

/-- Observable actions of the ConfigFS backend in execution order:
external-process invocations, UDC writes, symlink operations under the
config directory, the product-id attribute write, and the MTP settle
sleep. -/
inductive CfsAct
  | stopMtp
  | udcDisable
  | udcEnable
  | disableAll
  | enableFn (f : String)
  | startMtp
  | settleSleep (ms : Nat)
  | writeProductId (text : String)
deriving DecidableEq, Repr

/-- Outcomes of the fallible ConfigFS primitives, supplied as an oracle
so the control flow of the embedded functions stays explicit. -/
structure CfsEnv where
  inUse : Bool
  initDone : Bool
  udcDisableOk : Bool
  disableAllOk : Bool
  enableOk : Bool
  udcEnableOk : Bool
  productIdOk : Bool
deriving DecidableEq, Repr

/-- `configfs_set_function`: bail out on a null function or an unprobed
backend; normalize the name; stop the MTP daemon when switching away
from MTP after init; then disable the UDC, disable all functions, enable
the requested function — returning `false` and performing no later step
as soon as one fails — and for MTP start the daemon and sleep 1500 ms.
The UDC is left disabled. -/
def configfs_set_function (env : CfsEnv) (func : Option String) :
    Bool × List CfsAct :=
  match func with
  | none => (false, [])
  | some f0 =>
      if ¬ env.inUse then (false, [])
      else
        let f := configfs_map_function f0
        let acts0 := if f ≠ FUNCTION_MTP ∧ env.initDone
          then [CfsAct.stopMtp] else []
        let acts1 := acts0 ++ [CfsAct.udcDisable]
        if ¬ env.udcDisableOk then (false, acts1)
        else
          let acts2 := acts1 ++ [CfsAct.disableAll]
          if ¬ env.disableAllOk then (false, acts2)
          else
            let acts3 := acts2 ++ [CfsAct.enableFn f]
            if ¬ env.enableOk then (false, acts3)
            else
              (true, acts3 ++ (if f = FUNCTION_MTP
                then [CfsAct.startMtp, CfsAct.settleSleep 1500] else []))

/-- `configfs_set_productid` as invoked with a non-null id: when the
backend is in use, write the normalized id text to the `idProduct`
attribute; the boolean is the write outcome. -/
def configfs_set_productid (env : CfsEnv) (id : Option String) :
    Bool × List CfsAct :=
  match id with
  | none => (false, [])
  | some s =>
      if env.inUse then
        (env.productIdOk, [CfsAct.writeProductId (configfs_id_write_text s)])
      else (false, [])

/-- `configfs_set_charging_mode`: `set_function("mass_storage")`, then
the hard-coded `configfs_set_productid("0AFE")` whose result is ignored,
then `set_udc(true)`; true only when the first and last succeed. -/
def configfs_set_charging_mode (env : CfsEnv) : Bool × List CfsAct :=
  let fn := configfs_set_function env (some "mass_storage")
  if ¬ fn.1 then (false, fn.2)
  else
    let pid := configfs_set_productid env (some "0AFE")
    let acts := fn.2 ++ pid.2 ++ [CfsAct.udcEnable]
    if ¬ env.udcEnableOk then (false, acts)
    else (true, acts)

/-- Does a trace leave the UDC disabled?  Tracks the last UDC write. -/
def cfsUdcFinal (l : List CfsAct) : Option Bool :=
  l.foldl (fun st a =>
    match a with
    | CfsAct.udcDisable => some false
    | CfsAct.udcEnable => some true
    | _ => st) none

/-- C8: `configfs_set_function` normalizes the short names
(`mass_storage` → `mass_storage.usb0`, `rndis` → `rndis_bam.rndis`,
`mtp`/`ffs` → `ffs.mtp`); with the backend in use it succeeds exactly
when UDC-disable, disable-all and enable-function all succeed, in that
order, with the MTP helper start and 1500 ms settle sleep appended only
for the MTP function; it stops at the first failing step, returning
false; it never enables the UDC, and once the disable step succeeded the
UDC is left disabled on return. -/
theorem configfs_C8_set_function :
    (configfs_map_function "mass_storage" = "mass_storage.usb0" ∧
     configfs_map_function "rndis" = "rndis_bam.rndis" ∧
     configfs_map_function "mtp" = "ffs.mtp" ∧
     configfs_map_function "ffs" = "ffs.mtp") ∧
    (∀ (env : CfsEnv) (f0 : String), env.inUse = true →
      (configfs_set_function env (some f0)).1 =
        (env.udcDisableOk && env.disableAllOk && env.enableOk)) ∧
    (∀ (env : CfsEnv) (f0 : String), env.inUse = true →
      env.udcDisableOk = true → env.disableAllOk = true →
      env.enableOk = true →
      (configfs_set_function env (some f0)).2 =
        (if configfs_map_function f0 ≠ FUNCTION_MTP ∧ env.initDone
          then [CfsAct.stopMtp] else [])
        ++ [CfsAct.udcDisable, CfsAct.disableAll,
            CfsAct.enableFn (configfs_map_function f0)]
        ++ (if configfs_map_function f0 = FUNCTION_MTP
            then [CfsAct.startMtp, CfsAct.settleSleep 1500] else [])) ∧
    (∀ (env : CfsEnv) (f0 : String), env.inUse = true →
      env.udcDisableOk = false →
      configfs_set_function env (some f0) =
        (false, (if configfs_map_function f0 ≠ FUNCTION_MTP ∧ env.initDone
          then [CfsAct.stopMtp] else []) ++ [CfsAct.udcDisable])) ∧
    (∀ (env : CfsEnv) (f0 : String), env.inUse = true →
      env.udcDisableOk = true → env.disableAllOk = false →
      configfs_set_function env (some f0) =
        (false, (if configfs_map_function f0 ≠ FUNCTION_MTP ∧ env.initDone
          then [CfsAct.stopMtp] else [])
          ++ [CfsAct.udcDisable, CfsAct.disableAll])) ∧
    (∀ (env : CfsEnv) (f0 : String), env.inUse = true →
      env.udcDisableOk = true → env.disableAllOk = true →
      env.enableOk = false →
      configfs_set_function env (some f0) =
        (false, (if configfs_map_function f0 ≠ FUNCTION_MTP ∧ env.initDone
          then [CfsAct.stopMtp] else [])
          ++ [CfsAct.udcDisable, CfsAct.disableAll,
              CfsAct.enableFn (configfs_map_function f0)])) ∧
    (∀ (env : CfsEnv) (func : Option String),
      CfsAct.udcEnable ∉ (configfs_set_function env func).2) ∧
    (∀ (env : CfsEnv) (f0 : String), env.inUse = true →
      env.udcDisableOk = true →
      cfsUdcFinal (configfs_set_function env (some f0)).2 = some false) := by
  refine ⟨⟨by decide, by decide, by decide, by decide⟩,
    ?_, ?_, ?_, ?_, ?_, ?_, ?_⟩
  · intro env f0 hin
    obtain ⟨inUse, initDone, u, dA, en, uE, pid⟩ := env
    simp only at hin
    subst hin
    cases u <;> cases dA <;> cases en <;>
      simp [configfs_set_function]
  · intro env f0 hin hu hdA hen
    obtain ⟨inUse, initDone, u, dA, en, uE, pid⟩ := env
    simp only at hin hu hdA hen
    subst hin; subst hu; subst hdA; subst hen
    by_cases hstop : configfs_map_function f0 ≠ FUNCTION_MTP ∧
        initDone = true <;>
      by_cases hmtp : configfs_map_function f0 = FUNCTION_MTP <;>
        simp_all [configfs_set_function]
  · intro env f0 hin hu
    obtain ⟨inUse, initDone, u, dA, en, uE, pid⟩ := env
    simp only at hin hu
    subst hin; subst hu
    simp [configfs_set_function]
  · intro env f0 hin hu hdA
    obtain ⟨inUse, initDone, u, dA, en, uE, pid⟩ := env
    simp only at hin hu hdA
    subst hin; subst hu; subst hdA
    simp [configfs_set_function]
  · intro env f0 hin hu hdA hen
    obtain ⟨inUse, initDone, u, dA, en, uE, pid⟩ := env
    simp only at hin hu hdA hen
    subst hin; subst hu; subst hdA; subst hen
    simp [configfs_set_function]
  · intro env func
    obtain ⟨inUse, initDone, u, dA, en, uE, pid⟩ := env
    cases func with
    | none => simp [configfs_set_function]
    | some f0 =>
        cases inUse <;> cases u <;> cases dA <;> cases en <;>
          by_cases hstop : configfs_map_function f0 ≠ FUNCTION_MTP ∧
              initDone = true <;>
            by_cases hmtp : configfs_map_function f0 = FUNCTION_MTP <;>
              simp_all [configfs_set_function]
  · intro env f0 hin hu
    obtain ⟨inUse, initDone, u, dA, en, uE, pid⟩ := env
    simp only at hin hu
    subst hin; subst hu
    cases dA <;> cases en <;>
      by_cases hstop : configfs_map_function f0 ≠ FUNCTION_MTP ∧
          initDone = true <;>
        by_cases hmtp : configfs_map_function f0 = FUNCTION_MTP <;>
          simp_all [configfs_set_function, cfsUdcFinal]

/-- Witness for C8 at a concrete invocation: MTP switch with all steps
succeeding. -/
theorem configfs_C8_set_function_witness :
    let env : CfsEnv := ⟨true, true, true, true, true, true, true⟩
    env.inUse = true ∧ env.udcDisableOk = true ∧ env.disableAllOk = true ∧
    env.enableOk = true ∧
    (configfs_set_function env (some "mtp")).2 =
      (if configfs_map_function "mtp" ≠ FUNCTION_MTP ∧ env.initDone
        then [CfsAct.stopMtp] else [])
      ++ [CfsAct.udcDisable, CfsAct.disableAll,
          CfsAct.enableFn (configfs_map_function "mtp")]
      ++ (if configfs_map_function "mtp" = FUNCTION_MTP
          then [CfsAct.startMtp, CfsAct.settleSleep 1500] else []) :=
  ⟨rfl, rfl, rfl, rfl,
   configfs_C8_set_function.2.2.1 ⟨true, true, true, true, true, true, true⟩
     "mtp" rfl rfl rfl rfl⟩

/-- `configfs_write_udc`: read the current UDC attribute value first
(fail without writing when the read fails), and write the desired text
only when it differs; the list collects the writes performed. -/
def configfs_write_udc (writeOk : Bool) (current : Option String)
    (text : String) : Bool × List String :=
  match current with
  | none => (false, [])
  | some prev => if prev ≠ text then (writeOk, [text]) else (true, [])

/-- `configfs_udc_enable_value`: the cached name of the first
non-dotfile symlink under `/sys/class/udc`, or `""` when none was
found. -/
def configfs_udc_enable_value (udcName : Option String) : String :=
  udcName.getD ""

/-- `configfs_set_udc`: enable writes the discovered UDC name, disable
writes the empty string, both through `configfs_write_udc`. -/
def configfs_set_udc (writeOk : Bool) (udcName : Option String)
    (current : Option String) (enable : Bool) : Bool × List String :=
  configfs_write_udc writeOk current
    (if enable then configfs_udc_enable_value udcName else "")

/-- C9: every UDC update reads the current value first — a failed read
means failure with no write, a value equal to the desired text means
success with no write performed — otherwise exactly the desired text is
written; `set_udc(true)` writes the discovered UDC device name and
`set_udc(false)` writes the empty string. -/
theorem configfs_C9_udc_read_before_write :
    (∀ (w : Bool) (prev : String),
      configfs_write_udc w (some prev) prev = (true, [])) ∧
    (∀ (w : Bool) (prev text : String), prev ≠ text →
      configfs_write_udc w (some prev) text = (w, [text])) ∧
    (∀ (w : Bool) (text : String),
      configfs_write_udc w none text = (false, [])) ∧
    (∀ (w : Bool) (n : String) (current : Option String),
      configfs_set_udc w (some n) current true =
        configfs_write_udc w current n) ∧
    (∀ (w : Bool) (udcName : Option String) (current : Option String),
      configfs_set_udc w udcName current false =
        configfs_write_udc w current "") := by
  refine ⟨?_, ?_, ?_, ?_, ?_⟩
  · intro w prev
    simp [configfs_write_udc]
  · intro w prev text h
    simp [configfs_write_udc, h]
  · intro w text
    simp [configfs_write_udc]
  · intro w n current
    simp [configfs_set_udc, configfs_udc_enable_value]
  · intro w udcName current
    simp [configfs_set_udc]

/-- Witness for C9: a differing current value gets the desired text
written. -/
theorem configfs_C9_udc_read_before_write_witness :
    ("dummy_udc.0" : String) ≠ "" ∧
    configfs_write_udc true (some "dummy_udc.0") "" = (true, [""]) :=
  ⟨by decide,
   configfs_C9_udc_read_before_write.2.1 true "dummy_udc.0" "" (by decide)⟩

/-- C10: `configfs_set_charging_mode` succeeds iff
`configfs_set_function("mass_storage")` and `configfs_set_udc(true)`
both succeed; the hard-coded product-id write of `"0AFE"` (normalized to
`0x0afe`) is attempted in between, but its outcome never influences the
result. -/
theorem configfs_C10_charging_mode (env : CfsEnv) :
    ((configfs_set_charging_mode env).1 =
      ((configfs_set_function env (some "mass_storage")).1 &&
        env.udcEnableOk)) ∧
    (env.inUse = true →
      (configfs_set_function env (some "mass_storage")).1 = true →
      CfsAct.writeProductId "0x0afe" ∈ (configfs_set_charging_mode env).2) ∧
    (∀ b : Bool,
      (configfs_set_charging_mode { env with productIdOk := b }).1 =
        (configfs_set_charging_mode env).1) := by
  obtain ⟨inUse, initDone, u, dA, en, uE, pid⟩ := env
  refine ⟨?_, ?_, ?_⟩
  · cases hfn : (configfs_set_function
        (⟨inUse, initDone, u, dA, en, uE, pid⟩ : CfsEnv)
        (some "mass_storage")).1 <;>
      cases uE <;>
        simp [configfs_set_charging_mode, hfn]
  · intro hin hfn
    simp only at hin
    subst hin
    have hpid : configfs_id_write_text "0AFE" = "0x0afe" := by decide
    simp [configfs_set_charging_mode, configfs_set_productid, hfn, hpid]
    cases uE <;> simp
  · intro b
    cases hfn : (configfs_set_function
        (⟨inUse, initDone, u, dA, en, uE, b⟩ : CfsEnv)
        (some "mass_storage")).1 <;>
      cases hfn2 : (configfs_set_function
          (⟨inUse, initDone, u, dA, en, uE, pid⟩ : CfsEnv)
          (some "mass_storage")).1 <;>
        cases uE <;>
          simp_all [configfs_set_charging_mode, configfs_set_function]

/-- Witness for C10: with everything succeeding except the product-id
write, the charging-mode switch still reports the product-id write in
its trace and succeeds. -/
theorem configfs_C10_charging_mode_witness :
    let env : CfsEnv := ⟨true, true, true, true, true, true, false⟩
    env.inUse = true ∧
    (configfs_set_function env (some "mass_storage")).1 = true ∧
    CfsAct.writeProductId "0x0afe" ∈ (configfs_set_charging_mode env).2 :=
  ⟨rfl, by decide,
   (configfs_C10_charging_mode ⟨true, true, true, true, true, true, false⟩
     ).2.1 rfl (by decide)⟩

end UsbModed
